import Mathlib

/-!
Shallow embedding of the JSON-Modify repository (src/chatbot_setup.py) and
verification of its specification claims.

Modelling conventions:
* Python/JSON values are the inductive `PyValue`; Python dicts are ordered
  association lists with Python's insert-or-update assignment semantics.
* The OpenAI network calls are replaced by an oracle argument describing the
  outcome of each request (a successful raw response text, or one of the
  exception classes the source catches); everything after the request is
  embedded from the source.
* Raising `QuotaExceededException` is modelled by the `Except.error` channel.
* `time.sleep` is modelled by returning the list of performed sleep durations.
-/

namespace JsonModify

/-- Values of the Python data model used by chatbot_setup.py: strings,
integers, booleans, Python `None`, lists, and dicts (ordered association
lists, as Python dicts preserve insertion order). -/
inductive PyValue where
  | str (s : String)
  | int (n : Int)
  | bool (b : Bool)
  | none
  | list (xs : List PyValue)
  | dict (entries : List (String × PyValue))

/-- A JSON record, i.e. a Python dict with string keys. -/
abbrev Record := List (String × PyValue)

/-- Python `d.get(k)` / `d[k]` lookup: the entry for key `k`, if present. -/
def dictLookup (d : Record) (k : String) : Option PyValue :=
  (d.find? (fun p => p.1 == k)).map (fun p => p.2)

/-- Python `d.get(k, default)`. -/
def dictGetD (d : Record) (k : String) (dflt : PyValue) : PyValue :=
  (dictLookup d k).getD dflt

/-- Python `d[k] = v` assignment: update the existing entry in place (keeping
its position, as Python dicts do) or append a new entry at the end. -/
def dictSet (d : Record) (k : String) (v : PyValue) : Record :=
  if d.any (fun p => p.1 == k) then
    d.map (fun p => if p.1 == k then (k, v) else p)
  else
    d ++ [(k, v)]

/-- Python truthiness of a value (`if val:`). -/
def pyTruthy : PyValue → Bool
  | .str s => !(s == "")
  | .int n => !(n == 0)
  | .bool b => b
  | .none => false
  | .list xs => !xs.isEmpty
  | .dict d => !d.isEmpty

/-- Rendering of a value as a Python `str()` (used only to build prompt text;
container rendering is abridged since no claim depends on it). -/
def pyStr : PyValue → String
  | .str s => s
  | .int n => toString n
  | .bool b => if b then "True" else "False"
  | .none => "None"
  | .list _ => "[...]"
  | .dict _ => "\x7b...\x7d"

/-- Whether `needle` occurs at the head of `hay` (character-wise). -/
def charsLead : List Char → List Char → Bool
  | [], _ => true
  | _ :: _, [] => false
  | a :: as, b :: bs => a == b && charsLead as bs

/-- Python `needle in haystack` substring test. -/
def strContains (haystack needle : String) : Bool :=
  (List.range (haystack.data.length + 1)).any
    (fun i => charsLead needle.data (haystack.data.drop i))

/-- Python `s.lower()` (character-wise). -/
def strLower (s : String) : String :=
  String.mk (s.data.map Char.toLower)

/-- Python `s.strip()`: drop leading and trailing whitespace. -/
def strStrip (s : String) : String :=
  String.mk (((s.data.dropWhile Char.isWhitespace).reverse.dropWhile
    Char.isWhitespace).reverse)

/-- Models the inline quota test used by both `call_openai` and
`gpt_translate_text`: Python
`'insufficient_quota' in error_msg.lower() or 'quota' in error_msg.lower()`. -/
def quota_in_message (error_msg : String) : Bool :=
  strContains (strLower error_msg) "insufficient_quota" ||
    strContains (strLower error_msg) "quota"

/-! ### JSON parsing (models `json.loads` / `json5.loads`)

The parser covers the JSON fragment the source exchanges with the model:
objects, arrays, strings with the common escapes, integer numbers, `true`,
`false`, `null`.  Floats and `\u` escapes are not modelled (no claim depends
on them); on such input the parser reports failure, which the source treats
like any other parse error. -/

/-- Drop leading JSON whitespace. -/
def skipWs : List Char → List Char
  | c :: cs => if c == ' ' || c == '\t' || c == '\n' || c == '\r' then skipWs cs else c :: cs
  | [] => []

/-- Parse the body of a JSON string after the opening quote; returns the
string content and the remaining input after the closing quote. -/
def parseStringBody : Nat → List Char → Option (String × List Char)
  | 0, _ => Option.none
  | _, [] => Option.none
  | fuel + 1, c :: cs =>
    if c == '"' then some ("", cs)
    else if c == '\\' then
      match cs with
      | e :: cs2 =>
        let cont := fun (ch : Char) =>
          (parseStringBody fuel cs2).map (fun r => (String.singleton ch ++ r.1, r.2))
        if e == '"' then cont '"'
        else if e == '\\' then cont '\\'
        else if e == '/' then cont '/'
        else if e == 'n' then cont '\n'
        else if e == 't' then cont '\t'
        else if e == 'r' then cont '\r'
        else Option.none
      | [] => Option.none
    else (parseStringBody fuel cs).map (fun r => (String.singleton c ++ r.1, r.2))

/-- Split off a maximal run of decimal digits. -/
def takeDigits : List Char → List Char × List Char
  | c :: cs =>
    if c.isDigit then
      let r := takeDigits cs
      (c :: r.1, r.2)
    else ([], c :: cs)
  | [] => ([], [])

/-- Numeric value of a digit run. -/
def digitsToNat (ds : List Char) : Nat :=
  ds.foldl (fun a c => a * 10 + (c.toNat - 48)) 0

/-- Parse a JSON integer (floats are not modelled and cause failure). -/
def parseNumber (cs : List Char) : Option (PyValue × List Char) :=
  let (neg, cs1) :=
    match cs with
    | '-' :: rest => (true, rest)
    | _ => (false, cs)
  match takeDigits cs1 with
  | ([], _) => Option.none
  | (ds, rest) =>
    match rest with
    | '.' :: _ => Option.none
    | 'e' :: _ => Option.none
    | 'E' :: _ => Option.none
    | _ =>
      let n : Int := Int.ofNat (digitsToNat ds)
      some (.int (if neg then -n else n), rest)

mutual

/-- Parse one JSON value. -/
def parseValue : Nat → List Char → Option (PyValue × List Char)
  | 0, _ => Option.none
  | fuel + 1, cs =>
    match skipWs cs with
    | [] => Option.none
    | c :: rest =>
      if c == '"' then
        (parseStringBody (rest.length + 1) rest).map (fun r => (.str r.1, r.2))
      else if c == '\x7b' then
        match skipWs rest with
        | '\x7d' :: rest2 => some (.dict [], rest2)
        | rest2 => parseMembers fuel rest2 []
      else if c == '[' then
        match skipWs rest with
        | ']' :: rest2 => some (.list [], rest2)
        | rest2 => parseItems fuel rest2 []
      else if c == '-' || c.isDigit then parseNumber (c :: rest)
      else if charsLead "true".data (c :: rest) then some (.bool true, rest.drop 3)
      else if charsLead "false".data (c :: rest) then some (.bool false, rest.drop 4)
      else if charsLead "null".data (c :: rest) then some (.none, rest.drop 3)
      else Option.none

/-- Parse the members of a JSON object after the opening brace (with at least
one member); duplicate keys keep the last value, as in Python. -/
def parseMembers : Nat → List Char → List (String × PyValue) →
    Option (PyValue × List Char)
  | 0, _, _ => Option.none
  | fuel + 1, cs, acc =>
    match skipWs cs with
    | '"' :: rest =>
      match parseStringBody (rest.length + 1) rest with
      | some (k, rest2) =>
        match skipWs rest2 with
        | ':' :: rest3 =>
          match parseValue fuel rest3 with
          | some (v, rest4) =>
            let acc2 := dictSet acc k v
            match skipWs rest4 with
            | ',' :: rest5 => parseMembers fuel rest5 acc2
            | '\x7d' :: rest5 => some (.dict acc2, rest5)
            | _ => Option.none
          | Option.none => Option.none
        | _ => Option.none
      | Option.none => Option.none
    | _ => Option.none

/-- Parse the items of a JSON array after the opening bracket (with at least
one item). -/
def parseItems : Nat → List Char → List PyValue → Option (PyValue × List Char)
  | 0, _, _ => Option.none
  | fuel + 1, cs, acc =>
    match parseValue fuel cs with
    | some (v, rest) =>
      match skipWs rest with
      | ',' :: rest2 => parseItems fuel rest2 (acc ++ [v])
      | ']' :: rest2 => some (.list (acc ++ [v]), rest2)
      | _ => Option.none
    | Option.none => Option.none

end

/-- Models Python `json.loads`: parse a complete JSON document. -/
def json_loads (s : String) : Option PyValue :=
  match parseValue (s.length + 1) s.data with
  | some (v, rest) => if (skipWs rest).isEmpty then some v else Option.none
  | Option.none => Option.none

/-- Models `json5.loads`, used by the source as a lenient fallback parser.
Modelled on the common JSON fragment (json5 accepts a superset of JSON; the
lenient extensions are not needed by any claim). -/
def json5_loads (s : String) : Option PyValue :=
  json_loads s

/-! ### Model client (`extract_json_substring`, `call_openai`) -/

/-- Index of the first occurrence of `c` (Python `s.find`). -/
def charsFindIdx (cs : List Char) (c : Char) : Option Nat :=
  cs.findIdx? (fun x => x == c)

/-- Index of the last occurrence of `c` (Python `s.rfind`). -/
def charsRfindIdx (cs : List Char) (c : Char) : Option Nat :=
  (charsFindIdx cs.reverse c).map (fun i => cs.length - 1 - i)

/-- Embeds `extract_json_substring`: the slice from the first opening brace to
the last closing brace when both exist in that order, otherwise the input
unchanged. -/
def extract_json_substring (s : String) : String :=
  let cs := s.data
  match charsFindIdx cs '\x7b', charsRfindIdx cs '\x7d' with
  | some start, some stop =>
    if stop > start then String.mk ((cs.drop start).take (stop + 1 - start)) else s
  | _, _ => s

/-- Outcome of one chat-completion request, standing in for the network call:
either a raw response text or one of the exception classes the source
distinguishes (`openai.RateLimitError`, `openai.AuthenticationError`, and the
catch-all for anything else). -/
inductive ApiOutcome where
  | success (raw : String)
  | rateLimitError (msg : String)
  | authenticationError (msg : String)
  | apiError (msg : String)

/-- Stand-in for `str(e)` of the decode error raised when both `json.loads`
and `json5.loads` fail; the exact wording is the parser library's and no claim
depends on it. -/
def json_decode_error_message (_json_text : String) : String :=
  "Could not parse response as JSON"

/-- Models the base system instruction of `get_system_prompt` (wording
abridged; only the question-type branching below is observable to claims). -/
def system_prompt_base : String :=
  "You are an expert educator, grader, and language expert. Return valid JSON ONLY."

/-- Embeds `get_system_prompt`: appends a question-type specific clause chosen
by case-insensitive matching with synonyms. -/
def get_system_prompt (question_type : String) : String :=
  let base := system_prompt_base
  let qt := strLower question_type
  if qt == "explanation" || qt == "exp" then
    base ++ " The answer should be a detailed explanation in a conversational and clear style."
  else if qt == "short answer" || qt == "short" then
    base ++ " The answer should be concise, precise, and natural."
  else if qt == "multiple choice" || qt == "mcq" then
    base ++ " The answer must be one of the provided options. Verify correctness in a natural, human-like manner."
  else if qt == "true/false" || qt == "truefalse" then
    base ++ " The answer must be either True or False, explained in a simple, human-like way."
  else
    base ++ " The answer type is unspecified; check for correctness in a conversational style."

/-- Embeds `call_openai`.  The `api` argument gives the outcome of the single
chat-completion request for the built system prompt and user prompt.  The
`Except.error` channel models raising `QuotaExceededException`; every other
path returns a parsed result dict. -/
def call_openai (question answer question_type : String)
    (api : String → String → ApiOutcome) : Except String PyValue :=
  let system_prompt := get_system_prompt question_type
  let prompt := "Question:\n" ++ question ++ "\n\nAnswer:\n" ++ answer
  match api system_prompt prompt with
  | .success raw =>
    let json_text := extract_json_substring raw
    match json_loads json_text with
    | some result => .ok result
    | Option.none =>
      match json5_loads json_text with
      | some result => .ok result
      | Option.none =>
        .ok (.dict [("valid", .bool false),
          ("reason", .str ("OpenAI API error: " ++ json_decode_error_message json_text)),
          ("corrected_answer", .none)])
  | .rateLimitError error_msg =>
    if quota_in_message error_msg then
      .error ("OpenAI API quota exceeded: " ++ error_msg)
    else
      .ok (.dict [("valid", .bool false),
        ("reason", .str ("Rate limit error: " ++ error_msg)),
        ("corrected_answer", .none)])
  | .authenticationError error_msg =>
    .ok (.dict [("valid", .bool false),
      ("reason", .str ("Authentication error: " ++ error_msg)),
      ("corrected_answer", .none)])
  | .apiError error_msg =>
    .ok (.dict [("valid", .bool false),
      ("reason", .str ("OpenAI API error: " ++ error_msg)),
      ("corrected_answer", .none)])

/-! ### Field mapping and the Validator (`validate_record`) -/

/-- Embeds `normalize_key`: strip then lower-case (the NFKC normalisation of
the source is the identity on the ASCII keys the claims use). -/
def normalize_key (key : String) : String :=
  strLower (strStrip key)

/-- Embeds the English entry of `KEY_MAPS`. -/
def KEY_MAPS_english : List (String × String) :=
  [("question", "Question"), ("discipline", "Discipline"), ("language", "Language"),
   ("grade", "Grade"), ("explanation", "Explanation"),
   ("competition_name", "Competition Name"), ("competition_year", "Competition Year"),
   ("question_number", "Question Number"), ("difficulty", "Difficulty"),
   ("question_type", "Question Type"), ("answer", "Answer")]

/-- Embeds `get_key_map_for_language`: always the English key map. -/
def get_key_map_for_language (_language : PyValue) : List (String × String) :=
  KEY_MAPS_english

/-- Embeds `FALLBACK_KEYS`. -/
def FALLBACK_KEYS : List (String × List String) :=
  [("question", ["Question", "question"]), ("answer", ["Answer", "answer"]),
   ("question_type", ["Question Type", "question type"]),
   ("language", ["Language", "language"]), ("discipline", ["Discipline", "discipline"]),
   ("grade", ["Grade", "grade"]), ("explanation", ["Explanation", "explanation"]),
   ("competition_name", ["Competition Name", "competition name"]),
   ("competition_year", ["Competition Year", "competition year"]),
   ("question_number", ["Question Number", "question number"]),
   ("difficulty", ["Difficulty", "difficulty"])]

/-- Lookup in a string-valued map with default `""` (Python
`key_map["answer"]`-style access always succeeds on the English map). -/
def keyMapGet (km : List (String × String)) (k : String) : String :=
  ((km.find? (fun p => p.1 == k)).map (fun p => p.2)).getD ""

/-- Fallback spellings for a canonical field (`FALLBACK_KEYS.get(k, [])`). -/
def fallbackFor (eng_key : String) : List String :=
  ((FALLBACK_KEYS.find? (fun q => q.1 == eng_key)).map (fun q => q.2)).getD []

/-- The dict comprehension shared by `map_record_fields` and
`validate_record`: re-key the record by normalised keys (later duplicates win,
as in a Python dict comprehension). -/
def normalized_entries (record : Record) : Record :=
  record.foldl (fun acc p => dictSet acc (normalize_key p.1) p.2) []

/-- Embeds `map_record_fields`: for each canonical field take the value at the
normalised canonical label; if absent or falsy, the first fallback spelling
present in the record; otherwise the empty string. -/
def map_record_fields (record : Record) (key_map : List (String × String)) : Record :=
  let normalized_record := normalized_entries record
  key_map.map (fun p =>
    let eng_key := p.1
    let local_key := p.2
    let val0 := dictGetD normalized_record (normalize_key local_key) (.str "")
    let val :=
      if pyTruthy val0 then val0
      else
        match (fallbackFor eng_key).find?
            (fun alt => (dictLookup normalized_record (normalize_key alt)).isSome) with
        | some alt => dictGetD normalized_record (normalize_key alt) (.str "")
        | Option.none => val0
    (eng_key, val))

/-- Exceptions that can escape `validate_record`: the re-raised
`QuotaExceededException`, or the `AttributeError` hit when the parsed model
response is not a dict (so `result.get` does not exist). -/
inductive PyErr where
  | quotaExceeded (msg : String)
  | attributeError

/-- The language-detection loop at the head of `validate_record`: the first
fallback spelling of "language" present in the normalised record gives the
language value, defaulting to `"English"`. -/
def detected_language (record : Record) : PyValue :=
  let normalized_record := normalized_entries record
  match (fallbackFor "language").find?
      (fun k => (dictLookup normalized_record (normalize_key k)).isSome) with
  | some k => dictGetD normalized_record (normalize_key k) (.str "English")
  | Option.none => .str "English"

/-- The key map `validate_record` selects for a record. -/
def record_key_map (record : Record) : List (String × String) :=
  get_key_map_for_language (detected_language record)

/-- The canonical field mapping `validate_record` computes for a record. -/
def mapped_fields (record : Record) : Record :=
  map_record_fields record (record_key_map record)

/-- The `call_openai(question, answer, question_type)` expression inside
`validate_record`, with the mapped arguments filled in. -/
def validation_call (record : Record) (api : String → String → ApiOutcome) :
    Except String PyValue :=
  let mapped := mapped_fields record
  let question := pyStr (dictGetD mapped "question" (.str ""))
  let answer := pyStr (dictGetD mapped "answer" (.str ""))
  let question_type := pyStr (dictGetD mapped "question_type" (.str "unspecified"))
  call_openai question answer question_type api

/-- Embeds `validate_record`: language detection, field mapping, the model
call, and the construction of the processed record.  `api` stands for the
network request outcome (see `call_openai`). -/
def validate_record (record : Record) (api : String → String → ApiOutcome) :
    Except PyErr Record :=
  match validation_call record api with
  | .error msg => .error (.quotaExceeded msg)
  | .ok result =>
    match result with
    | .dict resd =>
      if pyTruthy (dictGetD resd "valid" (.bool false)) then
        let new_rec := dictSet record "_validation"
          (.dict [("valid", .bool true), ("reason", dictGetD resd "reason" .none)])
        let new_rec := dictSet new_rec "explanation_status" (.str "Answer is correct.")
        .ok new_rec
      else
        let corrected_answer := dictGetD resd "corrected_answer" .none
        let new_rec :=
          if pyTruthy corrected_answer then
            dictSet (dictSet record (keyMapGet (record_key_map record) "answer") corrected_answer)
              "explanation_status" (.str "Answer corrected by AI.")
          else record
        let corrected_explanation := dictGetD resd "corrected_explanation" .none
        let new_rec :=
          if pyTruthy corrected_explanation then
            dictSet new_rec (keyMapGet (record_key_map record) "explanation") corrected_explanation
          else
            dictSet new_rec "explanation_status" (.str "Explanation is already correct.")
        let new_rec := dictSet new_rec "_validation"
          (.dict [("valid", .bool false), ("reason", dictGetD resd "reason" .none),
            ("corrected", .bool true)])
        .ok new_rec
    | _ => .error .attributeError

/-! ### Translator (`gpt_translate_text`) -/

/-- Outcome of one translation request (same exception classes as
`ApiOutcome`; kept separate because the translator consults its oracle by
prompt text). -/
inductive TrOutcome where
  | success (raw : String)
  | rateLimitError (msg : String)
  | authenticationError (msg : String)
  | apiError (msg : String)

/-- The prompt built for translating a `_validation` reason. -/
def reason_translate_prompt (target_language val_value : String) : String :=
  "Translate the following validation reason into " ++ target_language ++
    ". Keep technical terms and maintain the professional tone. " ++
    "Do not change formatting, numbers, or LaTeX.\n\nText: " ++ val_value

/-- The prompt built for translating an ordinary field value. -/
def field_translate_prompt (target_language value : String) : String :=
  "Translate the following text into " ++ target_language ++
    ". Do not change formatting, numbers, or LaTeX. " ++
    "Do not translate proper nouns unless needed.\n\nText: " ++ value

/-- Embeds the `_validation` sub-loop of `gpt_translate_text` for one entry:
only a non-blank string under key `"reason"` is translated; a quota-indicating
rate limit raises; every other failure (including authentication errors, which
only the outer field loop catches specially) keeps the original value. -/
def translate_validation_entry (api : String → TrOutcome) (target_language : String)
    (val_key : String) (val_value : PyValue) : Except String PyValue :=
  match val_value with
  | .str s =>
    if val_key == "reason" && !(strStrip s == "") then
      match api (reason_translate_prompt target_language s) with
      | .success raw => .ok (.str (strStrip raw))
      | .rateLimitError error_msg =>
        if quota_in_message error_msg then
          .error ("Translation quota exceeded: " ++ error_msg)
        else .ok (.str s)
      | .authenticationError _ => .ok (.str s)
      | .apiError _ => .ok (.str s)
    else .ok (.str s)
  | v => .ok v

/-- The `_validation` sub-loop over all entries, in order, short-circuiting on
a raised exception (the partially built dict is then discarded). -/
def translate_validation_entries (api : String → TrOutcome) (target_language : String) :
    List (String × PyValue) → Except String (List (String × PyValue))
  | [] => .ok []
  | (val_key, val_value) :: rest =>
    match translate_validation_entry api target_language val_key val_value with
    | .error e => .error e
    | .ok v2 =>
      match translate_validation_entries api target_language rest with
      | .error e => .error e
      | .ok rest2 => .ok ((val_key, v2) :: rest2)

/-- View a value as dict entries, when it is a dict. -/
def asDictEntries : PyValue → Option (List (String × PyValue))
  | .dict d => some d
  | _ => Option.none

/-- Embeds one iteration of the field loop of `gpt_translate_text` for key
`key` and value `value`: the `_validation` dict is handled by the sub-loop;
`explanation_status` passes through; non-string or blank values pass through;
otherwise the value is translated, with the source's error handling (quota →
raise, other rate limit → sleep 60 then keep original, authentication error →
raise quota, anything else → keep original).  Returns the new value and the
list of sleep durations performed. -/
def translate_field (api : String → TrOutcome) (target_language key : String)
    (value : PyValue) : Except String (PyValue × List Nat) :=
  match (if key == "_validation" then asDictEntries value else Option.none) with
  | some d =>
    match translate_validation_entries api target_language d with
    | .error e => .error e
    | .ok d2 => .ok (.dict d2, [])
  | Option.none =>
    if key == "explanation_status" then .ok (value, [])
    else
      match value with
      | .str s =>
        if strStrip s == "" then .ok (.str s, [])
        else
          match api (field_translate_prompt target_language s) with
          | .success raw => .ok (.str (strStrip raw), [])
          | .rateLimitError error_msg =>
            if quota_in_message error_msg then
              .error ("Translation quota exceeded: " ++ error_msg)
            else .ok (.str s, [60])
          | .authenticationError error_msg =>
            .error ("Authentication error during translation: " ++ error_msg)
          | .apiError _ => .ok (.str s, [])
      | v => .ok (v, [])

/-- The field loop of `gpt_translate_text` over the remaining entries: builds
the translated record in input order, accumulating sleeps, short-circuiting
when an exception is raised (the partially built record is then discarded). -/
def gpt_translate_fields (api : String → TrOutcome) (target_language : String) :
    Record → Except String (Record × List Nat)
  | [] => .ok ([], [])
  | (key, value) :: rest =>
    match translate_field api target_language key value with
    | .error e => .error e
    | .ok (v2, sleeps1) =>
      match gpt_translate_fields api target_language rest with
      | .error e => .error e
      | .ok (rest2, sleeps2) => .ok ((key, v2) :: rest2, sleeps1 ++ sleeps2)

/-- Embeds `gpt_translate_text`: translate the values of one record, keys kept
verbatim.  `api` gives the outcome of each translation request by prompt text;
the `Except.error` channel models raising `QuotaExceededException` (directly,
or escalated from an authentication error). -/
def gpt_translate_text (text_record : Record) (target_language : String)
    (api : String → TrOutcome) : Except String (Record × List Nat) :=
  gpt_translate_fields api target_language text_record

/-! ### Parallel batch runner (`process_records_parallel`) -/

/-- One submitted task of the thread pool: the worker for index `i` runs
`validate_record` on record `i`. -/
def batchTask (records : List Record) (api : Nat → String → String → ApiOutcome)
    (i : Nat) : Except PyErr Record :=
  validate_record (records.getD i []) (api i)

/-- Embeds the `as_completed` loop of `process_records_parallel`: `order` is
the completion order of the futures, `results` the slot array.  Each completed
task stores its result at its original index; the first task that raised makes
the loop cancel the not-yet-started futures and re-raise, with the slot array
in its state at that moment (in-flight and cancelled tasks stay `none`). -/
def runBatch (task : Nat → Except PyErr Record) :
    List Nat → List (Option Record) →
    Except (PyErr × List (Option Record)) (List (Option Record))
  | [], results => .ok results
  | i :: rest, results =>
    match task i with
    | .ok r => runBatch task rest (results.set i (some r))
    | .error e => .error (e, results)

/-- Embeds `process_records_parallel`: a slot array of length `len(records)`
initialised to `None`, filled in completion order `order` by the validation
workers (whose request outcomes are given by `api`, per record index). -/
def process_records_parallel (records : List Record)
    (api : Nat → String → String → ApiOutcome) (order : List Nat) :
    Except (PyErr × List (Option Record)) (List (Option Record)) :=
  runBatch (batchTask records api) order (List.replicate records.length Option.none)

/-! ### Named output shapes of `validate_record` -/

/-- The corrected-answer step of the invalid branch of `validate_record`
(the `if result.get("corrected_answer")` block). -/
def answer_step (record : Record) (resd : List (String × PyValue)) : Record :=
  if pyTruthy (dictGetD resd "corrected_answer" .none) then
    dictSet (dictSet record "Answer" (dictGetD resd "corrected_answer" .none))
      "explanation_status" (.str "Answer corrected by AI.")
  else record

/-- The corrected-explanation step of the invalid branch of
`validate_record` (the `if result.get("corrected_explanation")` block, which
otherwise overwrites the explanation status). -/
def explanation_step (record : Record) (resd : List (String × PyValue)) : Record :=
  if pyTruthy (dictGetD resd "corrected_explanation" .none) then
    dictSet (answer_step record resd) "Explanation"
      (dictGetD resd "corrected_explanation" .none)
  else
    dictSet (answer_step record resd) "explanation_status"
      (.str "Explanation is already correct.")

/-- The full output of the invalid branch of `validate_record`. -/
def invalid_result (record : Record) (resd : List (String × PyValue)) : Record :=
  dictSet (explanation_step record resd) "_validation"
    (.dict [("valid", .bool false), ("reason", dictGetD resd "reason" .none),
      ("corrected", .bool true)])

/-- The full output of the valid branch of `validate_record`. -/
def valid_result (record : Record) (resd : List (String × PyValue)) : Record :=
  dictSet (dictSet record "_validation"
      (.dict [("valid", .bool true), ("reason", dictGetD resd "reason" .none)]))
    "explanation_status" (.str "Answer is correct.")

/-! ### Concrete scenario inputs used by the claim checks -/

/-- Input record of the spec scenario for C2. -/
def c2_record : Record :=
  [("Question", .str "2+2?"), ("Answer", .str "5"), ("Question Type", .str "short")]

/-- Model response of the spec scenario for C2: invalid, corrected answer
`"4"`, no corrected explanation. -/
def c2_api : String → String → ApiOutcome := fun _ _ =>
  .success "\x7b\"valid\": false, \"reason\": \"Incorrect\", \"corrected_answer\": \"4\", \"corrected_explanation\": null\x7d"

/-- Parsed result dict of the C2 scenario response. -/
def c2_resd : List (String × PyValue) :=
  [("valid", .bool false), ("reason", .str "Incorrect"), ("corrected_answer", .str "4"),
   ("corrected_explanation", .none)]

/-- Output record `validate_record` produces in the C2 scenario. -/
def c2_output : Record :=
  [("Question", .str "2+2?"), ("Answer", .str "4"), ("Question Type", .str "short"),
   ("explanation_status", .str "Explanation is already correct."),
   ("_validation", .dict [("valid", .bool false), ("reason", .str "Incorrect"),
     ("corrected", .bool true)])]

/-- Input record for the C3 check: no `explanation_status` field. -/
def c3_record : Record := [("Question", .str "q"), ("Answer", .str "a")]

/-- Model response for the C3 check: invalid with neither a corrected answer
nor a corrected explanation. -/
def c3_api : String → String → ApiOutcome := fun _ _ =>
  .success "\x7b\"valid\": false, \"reason\": \"unsound\"\x7d"

/-- Parsed result dict of the C3 check response. -/
def c3_resd : List (String × PyValue) := [("valid", .bool false), ("reason", .str "unsound")]

/-- Output record `validate_record` produces in the C3 check. -/
def c3_output : Record :=
  [("Question", .str "q"), ("Answer", .str "a"),
   ("explanation_status", .str "Explanation is already correct."),
   ("_validation", .dict [("valid", .bool false), ("reason", .str "unsound"),
     ("corrected", .bool true)])]

/-- Input record for the C4 check. -/
def c4_record : Record := [("Answer", .str "5")]

/-- Model response for the C4 check: invalid, with a corrected answer equal
to the record's original answer. -/
def c4_api : String → String → ApiOutcome := fun _ _ =>
  .success "\x7b\"valid\": false, \"corrected_answer\": \"5\"\x7d"

/-- Output record `validate_record` produces in the C4 check. -/
def c4_output : Record :=
  [("Answer", .str "5"),
   ("explanation_status", .str "Explanation is already correct."),
   ("_validation", .dict [("valid", .bool false), ("reason", .none),
     ("corrected", .bool true)])]

/-- Input record for the C4 instance with a changed answer. -/
def c4w_record : Record := [("Answer", .str "old")]

/-- Model response for the C4 instance with a changed answer. -/
def c4w_api : String → String → ApiOutcome := fun _ _ =>
  .success "\x7b\"valid\": false, \"corrected_answer\": \"new\"\x7d"

/-- Parsed result dict of the C4 instance response. -/
def c4w_resd : List (String × PyValue) :=
  [("valid", .bool false), ("corrected_answer", .str "new")]

/-- Output record `validate_record` produces in the C4 instance. -/
def c4w_output : Record :=
  [("Answer", .str "new"),
   ("explanation_status", .str "Explanation is already correct."),
   ("_validation", .dict [("valid", .bool false), ("reason", .none),
     ("corrected", .bool true)])]

/-- Input record for the C5 instance. -/
def c5_record : Record := [("Question", .str "q"), ("Answer", .str "a")]

/-- Model response for the C5 instance: valid. -/
def c5_api : String → String → ApiOutcome := fun _ _ =>
  .success "\x7b\"valid\": true, \"reason\": \"ok\"\x7d"

/-- Parsed result dict of the C5 instance response. -/
def c5_resd : List (String × PyValue) := [("valid", .bool true), ("reason", .str "ok")]

/-- Network outcome for the C7 quota instance. -/
def c7_quota_api : String → String → ApiOutcome := fun _ _ =>
  .rateLimitError "insufficient_quota: billing"

/-- Input record for the C7 non-object-response counterexample. -/
def c7x_record : Record := [("Question", .str "q")]

/-- Network outcome for the C7 non-object-response counterexample: the model
answers with the JSON text `null`, which parses but is not an object. -/
def c7x_api : String → String → ApiOutcome := fun _ _ => .success "null"

/-- Network outcome for the C7 plain rate-limit instance. -/
def c7_limit_api : String → String → ApiOutcome := fun _ _ =>
  .rateLimitError "too many requests"

/-- Translation outcome for the C8 rate-limit instance. -/
def c8_limit_api : String → TrOutcome := fun _ => .rateLimitError "slow down"

/-- Translation outcome for the C8 authentication-failure instance. -/
def c8_auth_api : String → TrOutcome := fun _ => .authenticationError "bad key"

/-- The claim's side condition on values the Translator passes through:
not a string, or an empty/whitespace-only string. -/
def is_blank_or_nonstring : PyValue → Bool
  | .str s => strStrip s == ""
  | _ => true

/-- Input record for the C9 counterexample: a `_validation` dict whose reason
will be translated. -/
def c9_record : Record := [("_validation", .dict [("reason", .str "bad")])]

/-- Translation outcome for the C9 counterexample. -/
def c9_api : String → TrOutcome := fun _ => .success "mal"

/-- Output record of the C9 counterexample run. -/
def c9_output : Record := [("_validation", .dict [("reason", .str "mal")])]

/-- Input record for the C9 frame instance. -/
def c9w_record : Record :=
  [("Num", .int 7), ("explanation_status", .str "Answer is correct."),
   ("_validation", .dict [("valid", .bool true), ("reason", .str "fine")])]

/-- Translation outcome for the C9 frame instance. -/
def c9w_api : String → TrOutcome := fun _ => .success "trad"

/-- Output record of the C9 frame instance run. -/
def c9w_output : Record :=
  [("Num", .int 7), ("explanation_status", .str "Answer is correct."),
   ("_validation", .dict [("valid", .bool true), ("reason", .str "trad")])]

/-- Translation outcomes for the C10 instance: quota on the field with text
`"boom"`, success elsewhere. -/
def c10_api : String → TrOutcome := fun prompt =>
  if prompt = field_translate_prompt "English" "boom" then
    .rateLimitError "insufficient_quota"
  else .success "ok-tx"

/-- Input record for the C6 instance. -/
def c6_records : List Record := [[("Question", .str "one")], [("Question", .str "two")]]

/-- Network outcomes for the C6 instance: every record validates fine. -/
def c6_api : Nat → String → String → ApiOutcome := fun _ _ _ =>
  .success "\x7b\"valid\": true, \"reason\": \"ok\"\x7d"

/-- Processed record the C6 instance produces for a given question text. -/
def c6_out (q : String) : Record :=
  [("Question", .str q),
   ("_validation", .dict [("valid", .bool true), ("reason", .str "ok")]),
   ("explanation_status", .str "Answer is correct.")]

/-- Input records for the C1 instance. -/
def c1_records : List Record :=
  [[("Question", .str "r0")], [("Question", .str "r1")], [("Question", .str "r2")]]

/-- Network outcomes for the C1 instance: record 1 hits the quota, the rest
validate fine. -/
def c1_api : Nat → String → String → ApiOutcome := fun i _ _ =>
  if i == 1 then .rateLimitError "insufficient_quota"
  else .success "\x7b\"valid\": true, \"reason\": \"ok\"\x7d"

/-- Processed record the C1 instance produces for record 2. -/
def c1_out2 : Record :=
  [("Question", .str "r2"),
   ("_validation", .dict [("valid", .bool true), ("reason", .str "ok")]),
   ("explanation_status", .str "Answer is correct.")]

/-- Partial result array at the moment the C1 instance raises. -/
def c1_partial : List (Option Record) := [Option.none, Option.none, some c1_out2]

/-! ### Dictionary lemmas -/

theorem dictLookup_cons (p : String × PyValue) (d : Record) (k : String) :
    dictLookup (p :: d) k = if p.1 == k then some p.2 else dictLookup d k := by
  by_cases h : p.1 == k <;> simp [dictLookup, List.find?_cons, h]

theorem dictSet_cons_of_ne (p : String × PyValue) (d : Record) (k : String) (v : PyValue)
    (hp : ¬p.1 = k) : dictSet (p :: d) k v = p :: dictSet d k v := by
  by_cases h : d.any (fun q => q.1 == k) <;>
    simp [dictSet, List.any_cons, h, hp]

theorem dictSet_cons_of_eq (p : String × PyValue) (d : Record) (k : String) (v : PyValue)
    (hp : p.1 = k) :
    dictSet (p :: d) k v = (k, v) :: d.map (fun q => if q.1 == k then (k, v) else q) := by
  simp [dictSet, List.any_cons, hp]

theorem dictLookup_mapReplace_of_ne (d : Record) (k k' : String) (v : PyValue)
    (h : ¬k = k') :
    dictLookup (d.map (fun q => if q.1 == k then (k, v) else q)) k' = dictLookup d k' := by
  induction d with
  | nil => rfl
  | cons q rest ih =>
    rw [List.map_cons, dictLookup_cons, dictLookup_cons]
    by_cases hq : q.1 = k
    · simpa [hq, h] using ih
    · by_cases hq' : q.1 = k'
      · simp [hq, hq', Ne.symm h]
      · simpa [hq, hq'] using ih

theorem dictLookup_dictSet_self (d : Record) (k : String) (v : PyValue) :
    dictLookup (dictSet d k v) k = some v := by
  induction d with
  | nil => simp [dictSet, dictLookup]
  | cons p rest ih =>
    by_cases hp : p.1 = k
    · rw [dictSet_cons_of_eq p rest k v hp, dictLookup_cons]
      simp
    · rw [dictSet_cons_of_ne p rest k v hp, dictLookup_cons]
      simpa [hp] using ih

theorem dictLookup_dictSet_of_ne (d : Record) (k k' : String) (v : PyValue)
    (h : k' ≠ k) : dictLookup (dictSet d k v) k' = dictLookup d k' := by
  have hne : ¬k = k' := Ne.symm h
  induction d with
  | nil => simp [dictSet, dictLookup, hne]
  | cons p rest ih =>
    by_cases hp : p.1 = k
    · rw [dictSet_cons_of_eq p rest k v hp]
      simp only [dictLookup_cons]
      simpa [hne, hp] using dictLookup_mapReplace_of_ne rest k k' v hne
    · rw [dictSet_cons_of_ne p rest k v hp]
      simp only [dictLookup_cons]
      by_cases hp' : p.1 = k'
      · simp [hp']
      · simpa [hp'] using ih

/-! ### Shape lemmas for `validate_record` -/

theorem keyMapGet_answer (record : Record) :
    keyMapGet (record_key_map record) "answer" = "Answer" := rfl

theorem keyMapGet_explanation (record : Record) :
    keyMapGet (record_key_map record) "explanation" = "Explanation" := rfl

theorem validate_record_valid_eq (record : Record) (api : String → String → ApiOutcome)
    (resd : List (String × PyValue))
    (hres : validation_call record api = Except.ok (.dict resd))
    (hvalid : pyTruthy (dictGetD resd "valid" (.bool false)) = true) :
    validate_record record api = .ok (valid_result record resd) := by
  unfold validate_record
  rw [hres]
  dsimp only
  rw [hvalid]
  simp [valid_result]

theorem validate_record_invalid_eq (record : Record) (api : String → String → ApiOutcome)
    (resd : List (String × PyValue))
    (hres : validation_call record api = Except.ok (.dict resd))
    (hvalid : pyTruthy (dictGetD resd "valid" (.bool false)) = false) :
    validate_record record api = .ok (invalid_result record resd) := by
  unfold validate_record
  rw [hres]
  dsimp only
  rw [hvalid, keyMapGet_answer, keyMapGet_explanation]
  simp only [Bool.false_eq_true, if_false]
  by_cases hca : pyTruthy (dictGetD resd "corrected_answer" .none) = true <;>
    by_cases hce : pyTruthy (dictGetD resd "corrected_explanation" .none) = true <;>
      simp [invalid_result, explanation_step, answer_step, hca, hce]

/-! ### Claim C2 -/

/-- Counterexample to C2 as stated: in the spec scenario (question `2+2?`,
answer `5`, type `short`, model outcome invalid with corrected_answer `4` and
no corrected_explanation) the Validator's output does NOT carry
`explanation_status = "Answer corrected by AI."` — the invalid branch's
`else` arm overwrites it because no corrected_explanation was supplied. -/
theorem C2_scenario_counterexample :
    validate_record c2_record c2_api = .ok c2_output ∧
    ¬dictLookup c2_output "explanation_status" =
      some (.str "Answer corrected by AI.") := by
  constructor
  · rfl
  · intro h
    rw [show dictLookup c2_output "explanation_status" =
      some (.str "Explanation is already correct.") from rfl] at h
    simp at h

/-- C2 as amended: in the spec scenario the output record has
`Answer = "4"`, `_validation.valid = false`, `_validation.corrected = true`,
and `explanation_status = "Explanation is already correct."` (the
"Answer corrected by AI." status set on the answer-correction step is
overwritten because the outcome supplied no corrected_explanation). -/
theorem C2_scenario_amended :
    validate_record c2_record c2_api = .ok c2_output ∧
    dictLookup c2_output "Answer" = some (.str "4") ∧
    dictLookup c2_output "_validation" =
      some (.dict [("valid", .bool false), ("reason", .str "Incorrect"),
        ("corrected", .bool true)]) ∧
    dictLookup c2_output "explanation_status" =
      some (.str "Explanation is already correct.") :=
  ⟨rfl, rfl, rfl, rfl⟩

/-! ### Claim C3 -/

/-- Counterexample to C3 as stated: a record whose outcome is invalid with
neither a corrected_answer nor a corrected_explanation DOES receive an
explanation_status from the Validator, namely
`"Explanation is already correct."` (the input record had no such field). -/
theorem C3_explanation_status_counterexample :
    validation_call c3_record c3_api = .ok (.dict c3_resd) ∧
    dictLookup c3_record "explanation_status" = Option.none ∧
    validate_record c3_record c3_api = .ok c3_output ∧
    dictLookup c3_output "explanation_status" =
      some (.str "Explanation is already correct.") :=
  ⟨rfl, rfl, rfl, rfl⟩

/-- C3 as amended: on the invalid path the status
`"Explanation is already correct."` is assigned exactly when the outcome
supplies no non-empty corrected_explanation, regardless of corrected_answer
(overwriting `"Answer corrected by AI."` when a corrected_answer was also
present); a record invalid with neither correction therefore receives
`"Explanation is already correct."`; only an outcome with a non-empty
corrected_explanation leaves the status untouched (when no corrected_answer)
or at `"Answer corrected by AI."` (when one was applied). -/
theorem C3_explanation_status_amended (record : Record)
    (api : String → String → ApiOutcome) (resd : List (String × PyValue)) (out : Record)
    (hres : validation_call record api = Except.ok (.dict resd))
    (hvalid : pyTruthy (dictGetD resd "valid" (.bool false)) = false)
    (hout : validate_record record api = .ok out) :
    (pyTruthy (dictGetD resd "corrected_explanation" .none) = false →
      dictLookup out "explanation_status" =
        some (.str "Explanation is already correct.")) ∧
    (pyTruthy (dictGetD resd "corrected_explanation" .none) = true →
      pyTruthy (dictGetD resd "corrected_answer" .none) = true →
      dictLookup out "explanation_status" = some (.str "Answer corrected by AI.")) ∧
    (pyTruthy (dictGetD resd "corrected_explanation" .none) = true →
      pyTruthy (dictGetD resd "corrected_answer" .none) = false →
      dictLookup out "explanation_status" = dictLookup record "explanation_status") := by
  have hinv := validate_record_invalid_eq record api resd hres hvalid
  rw [hinv] at hout
  have hout2 : out = invalid_result record resd := by
    cases hout
    rfl
  subst hout2
  refine ⟨fun hce => ?_, fun hce hca => ?_, fun hce hca => ?_⟩
  · rw [invalid_result, dictLookup_dictSet_of_ne _ _ _ _ (by decide),
      explanation_step, hce]
    simp [dictLookup_dictSet_self]
  · rw [invalid_result, dictLookup_dictSet_of_ne _ _ _ _ (by decide),
      explanation_step, hce]
    simp only [if_true]
    rw [dictLookup_dictSet_of_ne _ _ _ _ (by decide), answer_step, hca]
    simp [dictLookup_dictSet_self]
  · rw [invalid_result, dictLookup_dictSet_of_ne _ _ _ _ (by decide),
      explanation_step, hce]
    simp only [if_true]
    rw [dictLookup_dictSet_of_ne _ _ _ _ (by decide), answer_step, hca]
    simp

/-- Instance of the amended C3 at the concrete no-corrections input. -/
theorem C3_explanation_status_applied :
    dictLookup c3_output "explanation_status" =
      some (.str "Explanation is already correct.") :=
  (C3_explanation_status_amended c3_record c3_api c3_resd c3_output rfl rfl rfl).1 rfl

/-! ### Claim C4 -/

/-- Counterexample to C4 as stated: the model may supply a corrected_answer
equal to the record's original answer; the output's answer field then equals
the input's, contradicting the claimed "differs from the input record's
original answer field". -/
theorem C4_corrected_answer_counterexample :
    validate_record c4_record c4_api = .ok c4_output ∧
    dictLookup c4_output "_validation" =
      some (.dict [("valid", .bool false), ("reason", .none),
        ("corrected", .bool true)]) ∧
    dictLookup c4_output "Answer" = some (.str "5") ∧
    dictLookup c4_record "Answer" = some (.str "5") :=
  ⟨rfl, rfl, rfl, rfl⟩

/-- C4 as amended: for an invalid outcome whose corrected_answer is non-empty
(Python truthiness, which is what the source tests), the output record's
answer field (under the English key `"Answer"`) equals that corrected_answer,
and `_validation = {valid: false, reason, corrected: true}` — but the new
answer need not differ from the input's original answer field. -/
theorem C4_corrected_answer_amended (record : Record)
    (api : String → String → ApiOutcome) (resd : List (String × PyValue)) (out : Record)
    (hres : validation_call record api = Except.ok (.dict resd))
    (hvalid : pyTruthy (dictGetD resd "valid" (.bool false)) = false)
    (hca : pyTruthy (dictGetD resd "corrected_answer" .none) = true)
    (hout : validate_record record api = .ok out) :
    dictLookup out "Answer" = some (dictGetD resd "corrected_answer" .none) ∧
    dictLookup out "_validation" =
      some (.dict [("valid", .bool false), ("reason", dictGetD resd "reason" .none),
        ("corrected", .bool true)]) := by
  have hinv := validate_record_invalid_eq record api resd hres hvalid
  rw [hinv] at hout
  have hout2 : out = invalid_result record resd := by
    cases hout
    rfl
  subst hout2
  constructor
  · rw [invalid_result, dictLookup_dictSet_of_ne _ _ _ _ (by decide),
      explanation_step]
    by_cases hce : pyTruthy (dictGetD resd "corrected_explanation" .none) = true <;>
      simp only [hce, if_true, Bool.false_eq_true, if_false] <;>
      rw [dictLookup_dictSet_of_ne _ _ _ _ (by decide), answer_step, hca] <;>
      simp only [if_true] <;>
      rw [dictLookup_dictSet_of_ne _ _ _ _ (by decide), dictLookup_dictSet_self]
  · exact dictLookup_dictSet_self _ _ _

/-- Instance of the amended C4 at a concrete input where the answer does
change. -/
theorem C4_corrected_answer_applied :
    dictLookup c4w_output "Answer" = some (.str "new") :=
  (C4_corrected_answer_amended c4w_record c4w_api c4w_resd c4w_output rfl rfl rfl rfl).1

/-! ### Claim C5 -/

/-- C5: for a valid outcome the Validator returns the record copied with only
`_validation = {valid: true, reason}` and
`explanation_status = "Answer is correct."` attached; every other field —
the answer and explanation fields in particular — is looked up unchanged. -/
theorem C5_valid_frame (record : Record) (api : String → String → ApiOutcome)
    (resd : List (String × PyValue))
    (hres : validation_call record api = Except.ok (.dict resd))
    (hvalid : pyTruthy (dictGetD resd "valid" (.bool false)) = true) :
    validate_record record api = .ok (valid_result record resd) ∧
    dictLookup (valid_result record resd) "_validation" =
      some (.dict [("valid", .bool true), ("reason", dictGetD resd "reason" .none)]) ∧
    dictLookup (valid_result record resd) "explanation_status" =
      some (.str "Answer is correct.") ∧
    (∀ k, ¬k = "_validation" → ¬k = "explanation_status" →
      dictLookup (valid_result record resd) k = dictLookup record k) := by
  refine ⟨validate_record_valid_eq record api resd hres hvalid, ?_, ?_, ?_⟩
  · rw [valid_result, dictLookup_dictSet_of_ne _ _ _ _ (by decide),
      dictLookup_dictSet_self]
  · exact dictLookup_dictSet_self _ _ _
  · intro k hk1 hk2
    rw [valid_result, dictLookup_dictSet_of_ne _ _ _ _ hk2,
      dictLookup_dictSet_of_ne _ _ _ _ hk1]

/-- Instance of C5 at a concrete valid-outcome input: the run returns the
frame-shaped output and the answer field is untouched. -/
theorem C5_valid_frame_applied :
    validate_record c5_record c5_api = .ok (valid_result c5_record c5_resd) ∧
    dictLookup (valid_result c5_record c5_resd) "Answer" = dictLookup c5_record "Answer" :=
  ⟨(C5_valid_frame c5_record c5_api c5_resd rfl rfl).1,
    (C5_valid_frame c5_record c5_api c5_resd rfl rfl).2.2.2 "Answer"
      (by decide) (by decide)⟩

/-! ### Claim C7 -/

/-- Counterexample to C7 as stated: for the model response text `null` the
extracted JSON parses (to Python `None`), `call_openai` returns it, and
`validate_record`'s `result.get(...)` then raises an `AttributeError` — an
exception that is not the quota-exceeded signal, escaping the validation of
a record. -/
theorem C7_nondict_response_counterexample :
    validate_record c7x_record c7x_api = .error PyErr.attributeError ∧
    (match validate_record c7x_record c7x_api with
      | .error (.quotaExceeded _) => False
      | _ => True) :=
  ⟨rfl, trivial⟩

/-- C7 as amended: a validation call whose request fails with a
quota-indicating rate limit raises the quota signal; any other rate limit
degrades to the rate-limit result dict; authentication and all other errors
degrade to a `valid: false` result carrying the message; and `call_openai`
itself never raises on a successful request, whatever the raw response text
(though `validate_record` can subsequently raise an `AttributeError` on a
response whose JSON is not an object). -/
theorem C7_call_openai_failures (question answer question_type : String)
    (error_msg raw : String) :
    (quota_in_message error_msg = true →
      call_openai question answer question_type (fun _ _ => .rateLimitError error_msg) =
        .error ("OpenAI API quota exceeded: " ++ error_msg)) ∧
    (quota_in_message error_msg = false →
      call_openai question answer question_type (fun _ _ => .rateLimitError error_msg) =
        .ok (.dict [("valid", .bool false),
          ("reason", .str ("Rate limit error: " ++ error_msg)),
          ("corrected_answer", .none)])) ∧
    (call_openai question answer question_type (fun _ _ => .authenticationError error_msg) =
      .ok (.dict [("valid", .bool false),
        ("reason", .str ("Authentication error: " ++ error_msg)),
        ("corrected_answer", .none)])) ∧
    (call_openai question answer question_type (fun _ _ => .apiError error_msg) =
      .ok (.dict [("valid", .bool false),
        ("reason", .str ("OpenAI API error: " ++ error_msg)),
        ("corrected_answer", .none)])) ∧
    (∃ result, call_openai question answer question_type (fun _ _ => .success raw) =
      .ok result) := by
  refine ⟨fun hq => ?_, fun hq => ?_, ?_, ?_, ?_⟩
  · unfold call_openai
    dsimp only
    rw [hq]
    simp
  · unfold call_openai
    dsimp only
    rw [hq]
    simp
  · rfl
  · rfl
  · unfold call_openai
    dsimp only
    cases h1 : json_loads (extract_json_substring raw) with
    | some result => exact ⟨result, rfl⟩
    | none =>
      cases h2 : json5_loads (extract_json_substring raw) with
      | some result => exact ⟨result, rfl⟩
      | none => exact ⟨_, rfl⟩

/-- Instance of C7 at concrete inputs: a quota-indicating rate limit raises,
a plain rate limit degrades. -/
theorem C7_call_openai_failures_applied :
    call_openai "q" "a" "short" c7_quota_api =
      .error ("OpenAI API quota exceeded: insufficient_quota: billing") ∧
    call_openai "q" "a" "short" c7_limit_api =
      .ok (.dict [("valid", .bool false),
        ("reason", .str ("Rate limit error: too many requests")),
        ("corrected_answer", .none)]) :=
  ⟨(C7_call_openai_failures "q" "a" "short" "insufficient_quota: billing" "").1
      (by decide),
    (C7_call_openai_failures "q" "a" "short" "too many requests" "").2.1
      (by decide)⟩

/-! ### Claim C8 -/

/-- C8: for a per-field translation call (a top-level field other than the
specially handled `_validation` and `explanation_status`, with a non-blank
string value): a non-quota rate limit sleeps 60 and keeps the original text;
a quota-indicating rate limit raises the quota signal; an authentication
error is escalated to the quota signal; any other error keeps the original
text without sleeping. -/
theorem C8_translate_error_handling (api : String → TrOutcome)
    (target_language key s : String)
    (hk1 : ¬key = "_validation") (hk2 : ¬key = "explanation_status")
    (hs : ¬strStrip s = "") :
    (∀ error_msg, api (field_translate_prompt target_language s) = .rateLimitError error_msg →
      quota_in_message error_msg = false →
      translate_field api target_language key (.str s) = .ok (.str s, [60])) ∧
    (∀ error_msg, api (field_translate_prompt target_language s) = .rateLimitError error_msg →
      quota_in_message error_msg = true →
      translate_field api target_language key (.str s) =
        .error ("Translation quota exceeded: " ++ error_msg)) ∧
    (∀ error_msg, api (field_translate_prompt target_language s) = .authenticationError error_msg →
      translate_field api target_language key (.str s) =
        .error ("Authentication error during translation: " ++ error_msg)) ∧
    (∀ error_msg, api (field_translate_prompt target_language s) = .apiError error_msg →
      translate_field api target_language key (.str s) = .ok (.str s, [])) := by
  have h1 : (key == "_validation") = false := by
    simpa using hk1
  have h2 : (key == "explanation_status") = false := by
    simpa using hk2
  have h3 : (strStrip s == "") = false := by
    simpa using hs
  refine ⟨fun error_msg hapi hq => ?_, fun error_msg hapi hq => ?_,
    fun error_msg hapi => ?_, fun error_msg hapi => ?_⟩
  · rw [translate_field, h1]
    simp only [Bool.false_eq_true, if_false, h2, h3, hapi]
    rw [hq]
    simp
  · rw [translate_field, h1]
    simp only [Bool.false_eq_true, if_false, h2, h3, hapi]
    rw [hq]
    simp
  · rw [translate_field, h1]
    simp only [Bool.false_eq_true, if_false, h2, h3, hapi]
  · rw [translate_field, h1]
    simp only [Bool.false_eq_true, if_false, h2, h3, hapi]

/-- Instance of C8 at concrete inputs: a plain rate limit sleeps 60 units and
keeps the text; an authentication failure raises the quota signal. -/
theorem C8_translate_error_handling_applied :
    translate_field c8_limit_api "English" "Answer" (.str "hi") =
      .ok (.str "hi", [60]) ∧
    translate_field c8_auth_api "English" "Answer" (.str "hi") =
      .error ("Authentication error during translation: bad key") :=
  ⟨(C8_translate_error_handling c8_limit_api "English" "Answer" "hi"
      (by decide) (by decide) (by decide)).1 "slow down" rfl (by decide),
    (C8_translate_error_handling c8_auth_api "English" "Answer" "hi"
      (by decide) (by decide) (by decide)).2.2.1 "bad key" rfl⟩

/-! ### Structural lemmas for the Translator -/

theorem translate_validation_entry_other (api : String → TrOutcome) (t val_key : String)
    (v : PyValue) (h : ¬val_key = "reason") :
    translate_validation_entry api t val_key v = .ok v := by
  cases v with
  | str s =>
    have hb : (val_key == "reason") = false := by simpa using h
    rw [translate_validation_entry, hb]
    simp
  | int n => rfl
  | bool b => rfl
  | none => rfl
  | list xs => rfl
  | dict d => rfl

theorem translate_validation_entries_lookup (api : String → TrOutcome) (t : String) :
    ∀ (d d2 : List (String × PyValue)),
      translate_validation_entries api t d = .ok d2 →
      ∀ k, ¬k = "reason" → dictLookup d2 k = dictLookup d k := by
  intro d
  induction d with
  | nil =>
    intro d2 h k hk
    cases h
    rfl
  | cons p rest ih =>
    intro d2 h k hk
    obtain ⟨vk, vv⟩ := p
    rw [translate_validation_entries] at h
    cases he : translate_validation_entry api t vk vv with
    | error e =>
      rw [he] at h
      exact absurd h (by simp)
    | ok v2 =>
      rw [he] at h
      cases hr : translate_validation_entries api t rest with
      | error e =>
        rw [hr] at h
        exact absurd h (by simp)
      | ok rest2 =>
        rw [hr] at h
        cases h
        rw [dictLookup_cons, dictLookup_cons]
        by_cases hvk : vk = k
        · have hvkr : ¬vk = "reason" := by rw [hvk]; exact hk
          rw [translate_validation_entry_other api t vk vv hvkr] at he
          cases he
          simp [hvk]
        · have hb : (vk == k) = false := by simpa using hvk
          rw [hb]
          simpa using ih rest2 hr k hk

theorem translate_field_validation (api : String → TrOutcome) (t : String)
    (d : List (String × PyValue)) (v2 : PyValue) (s1 : List Nat)
    (h : translate_field api t "_validation" (.dict d) = .ok (v2, s1)) :
    ∃ d2, translate_validation_entries api t d = .ok d2 ∧ v2 = .dict d2 := by
  have heq : translate_field api t "_validation" (.dict d) =
      (match translate_validation_entries api t d with
        | .error e => .error e
        | .ok d2 => .ok (.dict d2, [])) := rfl
  rw [heq] at h
  cases hte : translate_validation_entries api t d with
  | error e =>
    rw [hte] at h
    exact absurd h (by simp)
  | ok d2 =>
    rw [hte] at h
    refine ⟨d2, rfl, ?_⟩
    cases h
    rfl

theorem translate_field_pass (api : String → TrOutcome) (t key : String) (v : PyValue)
    (hd : key = "_validation" → asDictEntries v = Option.none)
    (hb : is_blank_or_nonstring v = true) :
    translate_field api t key v = .ok (v, []) := by
  cases v with
  | str s =>
    have h3 : (strStrip s == "") = true := by
      simpa [is_blank_or_nonstring] using hb
    by_cases hk1 : key = "_validation" <;> by_cases hk2 : key = "explanation_status" <;>
      simp [translate_field, hk1, hk2, asDictEntries, h3]
  | int n =>
    by_cases hk1 : key = "_validation" <;> by_cases hk2 : key = "explanation_status" <;>
      simp [translate_field, hk1, hk2, asDictEntries]
  | bool b =>
    by_cases hk1 : key = "_validation" <;> by_cases hk2 : key = "explanation_status" <;>
      simp [translate_field, hk1, hk2, asDictEntries]
  | none =>
    by_cases hk1 : key = "_validation" <;> by_cases hk2 : key = "explanation_status" <;>
      simp [translate_field, hk1, hk2, asDictEntries]
  | list xs =>
    by_cases hk1 : key = "_validation" <;> by_cases hk2 : key = "explanation_status" <;>
      simp [translate_field, hk1, hk2, asDictEntries]
  | dict dd =>
    by_cases hk1 : key = "_validation"
    · exact absurd (hd hk1) (by simp [asDictEntries])
    · by_cases hk2 : key = "explanation_status" <;>
        simp [translate_field, hk1, hk2, asDictEntries]

theorem translate_field_status (api : String → TrOutcome) (t : String) (v : PyValue) :
    translate_field api t "explanation_status" v = .ok (v, []) := rfl

theorem gpt_fields_keys (api : String → TrOutcome) (t : String) :
    ∀ (r out : Record) (sleeps : List Nat),
      gpt_translate_fields api t r = .ok (out, sleeps) →
      out.map Prod.fst = r.map Prod.fst := by
  intro r
  induction r with
  | nil =>
    intro out sleeps h
    cases h
    rfl
  | cons p rest ih =>
    intro out sleeps h
    obtain ⟨key, value⟩ := p
    rw [gpt_translate_fields] at h
    cases htf : translate_field api t key value with
    | error e =>
      rw [htf] at h
      exact absurd h (by simp)
    | ok pr =>
      obtain ⟨v2, s1⟩ := pr
      rw [htf] at h
      cases hrest : gpt_translate_fields api t rest with
      | error e =>
        rw [hrest] at h
        exact absurd h (by simp)
      | ok pr2 =>
        obtain ⟨rest2, s2⟩ := pr2
        rw [hrest] at h
        cases h
        simpa using ih rest2 s2 hrest

theorem gpt_fields_lookup (api : String → TrOutcome) (t : String) :
    ∀ (r out : Record) (sleeps : List Nat),
      gpt_translate_fields api t r = .ok (out, sleeps) →
      ∀ k v, dictLookup r k = some v →
        ∃ v2 s1, translate_field api t k v = .ok (v2, s1) ∧
          dictLookup out k = some v2 := by
  intro r
  induction r with
  | nil =>
    intro out sleeps h k v hv
    simp [dictLookup] at hv
  | cons p rest ih =>
    intro out sleeps h k v hv
    obtain ⟨key, value⟩ := p
    rw [gpt_translate_fields] at h
    cases htf : translate_field api t key value with
    | error e =>
      rw [htf] at h
      exact absurd h (by simp)
    | ok pr =>
      obtain ⟨v2, s1⟩ := pr
      rw [htf] at h
      cases hrest : gpt_translate_fields api t rest with
      | error e =>
        rw [hrest] at h
        exact absurd h (by simp)
      | ok pr2 =>
        obtain ⟨rest2, s2⟩ := pr2
        rw [hrest] at h
        cases h
        rw [dictLookup_cons] at hv
        by_cases hk : key = k
        · rw [if_pos (by simpa using hk)] at hv
          cases hv
          subst hk
          exact ⟨v2, s1, htf, by rw [dictLookup_cons]; simp⟩
        · have hb : (key == k) = false := by simpa using hk
          rw [hb] at hv
          simp only [Bool.false_eq_true, if_false] at hv
          obtain ⟨w2, w1, h1, h2⟩ := ih rest2 s2 hrest k v hv
          exact ⟨w2, w1, h1, by rw [dictLookup_cons, hb]; simpa using h2⟩

theorem dictLookup_none_transfer (out r : Record) (k : String)
    (hmap : out.map Prod.fst = r.map Prod.fst)
    (h : dictLookup r k = Option.none) : dictLookup out k = Option.none := by
  rw [dictLookup, Option.map_eq_none'] at h ⊢
  rw [List.find?_eq_none] at h ⊢
  intro x hx
  have hx1 : x.1 ∈ r.map Prod.fst := by
    rw [← hmap]
    exact List.mem_map_of_mem _ hx
  obtain ⟨y, hy, hyx⟩ := List.mem_map.mp hx1
  have := h y hy
  simp only at this ⊢
  rw [← hyx]
  exact this

theorem gpt_fields_error (api : String → TrOutcome) (t : String) :
    ∀ (pre : Record) (key : String) (value : PyValue) (post : Record) (e : String),
      (∀ entry ∈ pre, ∃ v2 s1, translate_field api t entry.1 entry.2 = .ok (v2, s1)) →
      translate_field api t key value = .error e →
      gpt_translate_fields api t (pre ++ (key, value) :: post) = .error e := by
  intro pre
  induction pre with
  | nil =>
    intro key value post e hpre herr
    rw [List.nil_append, gpt_translate_fields, herr]
  | cons p rest ih =>
    intro key value post e hpre herr
    obtain ⟨k0, v0⟩ := p
    obtain ⟨v2, s1, h0⟩ := hpre (k0, v0) (by simp)
    rw [List.cons_append, gpt_translate_fields, h0]
    dsimp only
    rw [ih key value post e (fun entry he => hpre entry (by simp [he])) herr]

/-! ### Claim C9 -/

/-- Counterexample to C9 as stated: a dict-valued `_validation` field is a
non-string top-level value, yet it is NOT passed through unchanged — its
`reason` sub-field is translated. -/
theorem C9_translate_frame_counterexample :
    gpt_translate_text c9_record "English" c9_api = .ok (c9_output, []) ∧
    is_blank_or_nonstring (PyValue.dict [("reason", PyValue.str "bad")]) = true ∧
    dictLookup c9_record "_validation" = some (.dict [("reason", .str "bad")]) ∧
    ¬dictLookup c9_output "_validation" = some (.dict [("reason", .str "bad")]) := by
  refine ⟨rfl, rfl, rfl, ?_⟩
  intro h
  rw [show dictLookup c9_output "_validation" =
    some (.dict [("reason", .str "mal")]) from rfl] at h
  simp at h

/-- C9 as amended: on a successful translation, `explanation_status` is
identical to the input, all sub-fields of a dict-valued `_validation` other
than `reason` (so `valid` and `corrected` in particular) are identical, and
every top-level value that is not a string or is a blank string — except a
dict-valued `_validation`, whose reason may be rewritten — passes through
unchanged. -/
theorem C9_translate_frame_amended (record : Record) (target_language : String)
    (api : String → TrOutcome) (out : Record) (sleeps : List Nat)
    (hok : gpt_translate_text record target_language api = .ok (out, sleeps)) :
    dictLookup out "explanation_status" = dictLookup record "explanation_status" ∧
    (∀ d, dictLookup record "_validation" = some (.dict d) →
      ∃ d2, dictLookup out "_validation" = some (.dict d2) ∧
        ∀ k, ¬k = "reason" → dictLookup d2 k = dictLookup d k) ∧
    (∀ k v, dictLookup record k = some v → is_blank_or_nonstring v = true →
      (k = "_validation" → asDictEntries v = Option.none) →
      dictLookup out k = some v) := by
  have hfields : gpt_translate_fields api target_language record = .ok (out, sleeps) := hok
  refine ⟨?_, ?_, ?_⟩
  · cases hlk : dictLookup record "explanation_status" with
    | none =>
      exact dictLookup_none_transfer out record _
        (gpt_fields_keys api target_language record out sleeps hfields) hlk
    | some v =>
      obtain ⟨v2, s1, h1, h2⟩ :=
        gpt_fields_lookup api target_language record out sleeps hfields _ v hlk
      rw [translate_field_status] at h1
      cases h1
      rw [h2]
  · intro d hd
    obtain ⟨v2, s1, h1, h2⟩ :=
      gpt_fields_lookup api target_language record out sleeps hfields _ (.dict d) hd
    obtain ⟨d2, hte, hv2⟩ := translate_field_validation api target_language d v2 s1 h1
    subst hv2
    exact ⟨d2, h2, translate_validation_entries_lookup api target_language d d2 hte⟩
  · intro k v hv hb hd
    obtain ⟨v2, s1, h1, h2⟩ :=
      gpt_fields_lookup api target_language record out sleeps hfields k v hv
    rw [translate_field_pass api target_language k v hd hb] at h1
    cases h1
    exact h2

/-- Instance of the amended C9 at a concrete record: the numeric field and
`explanation_status` pass through. -/
theorem C9_translate_frame_applied :
    dictLookup c9w_output "Num" = some (.int 7) ∧
    dictLookup c9w_output "explanation_status" =
      dictLookup c9w_record "explanation_status" :=
  ⟨(C9_translate_frame_amended c9w_record "English" c9w_api c9w_output [] rfl).2.2
      "Num" (.int 7) rfl rfl (by intro h; exact absurd h (by decide)),
    (C9_translate_frame_amended c9w_record "English" c9w_api c9w_output [] rfl).1⟩

/-! ### Claim C10 -/

/-- C10: if a quota-exceeded signal (or any raised error) arises at some field
of a record, after any prefix of successfully translated fields, the whole
translation raises and no partial record is returned; and whenever a record
IS returned it is complete — it has exactly the input's keys in order.  (The
partially built `translated_record` of the source is a local that the raised
exception discards.) -/
theorem C10_all_or_nothing (api : String → TrOutcome) (target_language : String)
    (pre : Record) (key : String) (value : PyValue) (post : Record) (e : String)
    (hpre : ∀ entry ∈ pre,
      ∃ v2 s1, translate_field api target_language entry.1 entry.2 = .ok (v2, s1))
    (herr : translate_field api target_language key value = .error e) :
    gpt_translate_text (pre ++ (key, value) :: post) target_language api = .error e ∧
    (∀ record out sleeps,
      gpt_translate_text record target_language api = .ok (out, sleeps) →
      out.map Prod.fst = record.map Prod.fst) := by
  constructor
  · exact gpt_fields_error api target_language pre key value post e hpre herr
  · intro record out sleeps hk
    exact gpt_fields_keys api target_language record out sleeps hk

/-- Instance of C10 at a concrete record: the quota signal on the second
field aborts the whole record. -/
theorem C10_all_or_nothing_applied :
    gpt_translate_text [("A", PyValue.str "x"), ("B", PyValue.str "boom"),
      ("C", PyValue.int 3)] "English" c10_api =
      .error "Translation quota exceeded: insufficient_quota" :=
  (C10_all_or_nothing c10_api "English" [("A", .str "x")] "B" (.str "boom")
    [("C", .int 3)] "Translation quota exceeded: insufficient_quota"
    (by
      intro entry he
      simp only [List.mem_singleton] at he
      subst he
      exact ⟨.str "ok-tx", [], rfl⟩)
    rfl).1

/-! ### Structural lemmas for the batch runner -/

theorem getElem?_replicate_of_lt (n j : Nat) (a : Option Record) (h : j < n) :
    (List.replicate n a)[j]? = some a := by
  simp [List.getElem?_replicate, h]

theorem runBatch_all_ok (task : Nat → Except PyErr Record) :
    ∀ (order : List Nat) (results : List (Option Record)),
      (∀ i ∈ order, ∃ r, task i = .ok r) →
      ∃ l, runBatch task order results = .ok l ∧ l.length = results.length ∧
        (∀ j, ¬j ∈ order → l[j]? = results[j]?) ∧
        (∀ j r, j ∈ order → j < results.length → task j = .ok r →
          l[j]? = some (some r)) := by
  intro order
  induction order with
  | nil =>
    intro results hok
    exact ⟨results, rfl, rfl, fun j _ => rfl,
      fun j r hj => absurd hj (List.not_mem_nil j)⟩
  | cons o os ih =>
    intro results hok
    obtain ⟨r0, hr0⟩ := hok o (by simp)
    obtain ⟨l, hl, hlen, hout, hin⟩ := ih (results.set o (some r0))
      (fun i hi => hok i (by simp [hi]))
    refine ⟨l, ?_, ?_, ?_, ?_⟩
    · rw [runBatch, hr0]
      exact hl
    · rw [hlen, List.length_set]
    · intro j hj
      have hjo : ¬j = o := fun hh => hj (by simp [hh])
      have hjos : ¬j ∈ os := fun hh => hj (by simp [hh])
      rw [hout j hjos, List.getElem?_set_ne (fun hh => hjo hh.symm)]
    · intro j r hj hlt hr
      by_cases hjos : j ∈ os
      · exact hin j r hjos (by rw [List.length_set]; exact hlt) hr
      · have hjo : j = o := by
          rcases List.mem_cons.mp hj with h | h
          · exact h
          · exact absurd h hjos
        subst hjo
        rw [hout j hjos, List.getElem?_set_eq_of_lt _ hlt]
        rw [hr] at hr0
        cases hr0
        rfl

theorem runBatch_first_error (task : Nat → Except PyErr Record) :
    ∀ (done : List Nat) (i : Nat) (rest : List Nat)
      (results : List (Option Record)) (e : PyErr),
      (∀ j ∈ done, ∃ r, task j = .ok r) → task i = .error e →
      ∃ partial0, runBatch task (done ++ i :: rest) results = .error (e, partial0) ∧
        partial0.length = results.length ∧
        (∀ j r, j ∈ done → j < results.length → task j = .ok r →
          partial0[j]? = some (some r)) ∧
        (∀ j, ¬j ∈ done → partial0[j]? = results[j]?) := by
  intro done
  induction done with
  | nil =>
    intro i rest results e hdone herr
    refine ⟨results, ?_, rfl, ?_, fun j _ => rfl⟩
    · rw [List.nil_append, runBatch, herr]
    · intro j r hj
      exact absurd hj (List.not_mem_nil j)
  | cons d ds ih =>
    intro i rest results e hdone herr
    obtain ⟨r0, hr0⟩ := hdone d (by simp)
    obtain ⟨partial0, hrun, hlen, hin, hout⟩ :=
      ih i rest (results.set d (some r0)) e (fun j hj => hdone j (by simp [hj])) herr
    refine ⟨partial0, ?_, ?_, ?_, ?_⟩
    · rw [List.cons_append, runBatch, hr0]
      exact hrun
    · rw [hlen, List.length_set]
    · intro j r hj hlt hr
      by_cases hjds : j ∈ ds
      · exact hin j r hjds (by rw [List.length_set]; exact hlt) hr
      · have hjd : j = d := by
          rcases List.mem_cons.mp hj with h | h
          · exact h
          · exact absurd h hjds
        subst hjd
        rw [hout j hjds, List.getElem?_set_eq_of_lt _ hlt]
        rw [hr] at hr0
        cases hr0
        rfl
    · intro j hj
      have hjd : ¬j = d := fun hh => hj (by simp [hh])
      have hjds : ¬j ∈ ds := fun hh => hj (by simp [hh])
      rw [hout j hjds, List.getElem?_set_ne (fun hh => hjd hh.symm)]

/-! ### Claim C6 -/

/-- C6: when no task raises, `process_records_parallel` never raises and the
returned sequence has the input's length, with the Validator's result for
record `i` stored at index `i`, whatever the completion order of the workers
(any permutation of the indices). -/
theorem C6_order_preservation (records : List Record)
    (api : Nat → String → String → ApiOutcome) (order : List Nat)
    (hperm : order.Perm (List.range records.length))
    (hok : ∀ i, i < records.length → ∃ r, batchTask records api i = .ok r) :
    (∀ e partial0, ¬process_records_parallel records api order = .error (e, partial0)) ∧
    (∀ l, process_records_parallel records api order = .ok l →
      l.length = records.length ∧
      ∀ i r, i < records.length → batchTask records api i = .ok r →
        l[i]? = some (some r)) := by
  have hmem : ∀ i ∈ order, i < records.length := by
    intro i hi
    have := hperm.mem_iff.mp hi
    simpa using this
  obtain ⟨l, hl, hlen, hout, hin⟩ := runBatch_all_ok (batchTask records api) order
    (List.replicate records.length Option.none)
    (fun i hi => hok i (hmem i hi))
  have hproc : process_records_parallel records api order = .ok l := hl
  constructor
  · intro e partial0 hcontra
    rw [hproc] at hcontra
    exact absurd hcontra (by simp)
  · intro l2 hl2
    rw [hproc] at hl2
    cases hl2
    constructor
    · rw [hlen, List.length_replicate]
    · intro i r hi hr
      have hiord : i ∈ order := hperm.mem_iff.mpr (by simpa using hi)
      exact hin i r hiord (by rw [List.length_replicate]; exact hi) hr

/-- Instance of C6 on a two-record batch completed in reverse order: each
slot holds its own record's result. -/
theorem C6_order_preservation_applied :
    process_records_parallel c6_records c6_api [1, 0] =
      .ok [some (c6_out "one"), some (c6_out "two")] ∧
    [some (c6_out "one"), some (c6_out "two")][0]? = some (some (c6_out "one")) :=
  ⟨rfl,
    ((C6_order_preservation c6_records c6_api [1, 0] (by decide)
      (by
        intro i hi
        have hi2 : i < 2 := by simpa [c6_records] using hi
        interval_cases i
        · exact ⟨c6_out "one", rfl⟩
        · exact ⟨c6_out "two", rfl⟩)).2
      [some (c6_out "one"), some (c6_out "two")] rfl).2 0 (c6_out "one")
      (by decide) rfl⟩

/-! ### Claim C1 -/

/-- C1: when the task for record `i` raises the quota signal after the tasks
in `done` completed (and the others never ran), `process_records_parallel`
does not return normally and re-raises the quota signal; in the partial
result array at that moment every completed record sits at its original
index and every other index (never started or cancelled) is `None`. -/
theorem C1_quota_preserves_completed (records : List Record)
    (api : Nat → String → String → ApiOutcome)
    (done : List Nat) (i : Nat) (rest : List Nat) (msg : String)
    (hperm : (done ++ i :: rest).Perm (List.range records.length))
    (hdone : ∀ j ∈ done, ∃ r, batchTask records api j = .ok r)
    (hquota : batchTask records api i = .error (.quotaExceeded msg)) :
    (∀ l, ¬process_records_parallel records api (done ++ i :: rest) = .ok l) ∧
    (∀ e partial0,
      process_records_parallel records api (done ++ i :: rest) = .error (e, partial0) →
      e = .quotaExceeded msg ∧
      partial0.length = records.length ∧
      (∀ j r, j ∈ done → batchTask records api j = .ok r →
        partial0[j]? = some (some r)) ∧
      (∀ j, j < records.length → ¬j ∈ done → partial0[j]? = some Option.none)) := by
  have hmem : ∀ j ∈ done, j < records.length := by
    intro j hj
    have hj2 : j ∈ done ++ i :: rest := by simp [hj]
    have := hperm.mem_iff.mp hj2
    simpa using this
  obtain ⟨partial0, hrun, hlen, hin, hout⟩ := runBatch_first_error (batchTask records api)
    done i rest (List.replicate records.length Option.none) (.quotaExceeded msg)
    hdone hquota
  have hproc : process_records_parallel records api (done ++ i :: rest) =
      .error (.quotaExceeded msg, partial0) := hrun
  constructor
  · intro l hcontra
    rw [hproc] at hcontra
    exact absurd hcontra (by simp)
  · intro e p0 hp
    rw [hproc] at hp
    cases hp
    refine ⟨rfl, by rw [hlen, List.length_replicate], ?_, ?_⟩
    · intro j r hj hr
      exact hin j r hj (by rw [List.length_replicate]; exact hmem j hj) hr
    · intro j hjlt hjdone
      rw [hout j hjdone]
      exact getElem?_replicate_of_lt records.length j Option.none hjlt

/-- Instance of C1 on a three-record batch where record 1 hits the quota
after record 2 completed: record 2's result is at index 2, the other slots
are `None`, and the run raises. -/
theorem C1_quota_preserves_completed_applied :
    process_records_parallel c1_records c1_api [2, 1, 0] =
      .error (.quotaExceeded "OpenAI API quota exceeded: insufficient_quota",
        c1_partial) ∧
    c1_partial[2]? = some (some c1_out2) ∧
    c1_partial[0]? = some Option.none := by
  have h := (C1_quota_preserves_completed c1_records c1_api [2] 1 [0]
      "OpenAI API quota exceeded: insufficient_quota" (by decide)
      (by
        intro j hj
        simp only [List.mem_singleton] at hj
        subst hj
        exact ⟨c1_out2, rfl⟩)
      rfl).2 (.quotaExceeded "OpenAI API quota exceeded: insufficient_quota")
      c1_partial rfl
  exact ⟨rfl, h.2.2.1 2 c1_out2 (by decide) rfl, h.2.2.2 0 (by decide) (by decide)⟩

end JsonModify
